import Mathlib

/-!
# Verification of the AI-video pipeline (`main.py`)

A shallow embedding, in Lean 4, of the decision-relevant logic of the
single-file FastAPI service `src/main.py`:

* the brace-balancing JSON extraction inside `call_hf_generate`
  (lines 78-97);
* the required-key validation of the parsed model output (lines 104-107);
* the audio-duration probe with its guideline fallback, and the final
  duration computation, inside `make_video` (lines 125-134);
* the render / fallback-render / error control flow of `make_video`
  together with the `finally` cleanup of the intermediate color clip
  (lines 136-185);
* the upload / URL-resolution / insert control flow of
  `upload_to_supabase_and_insert` (lines 187-229) and the tail of the
  `generate` endpoint (lines 260-273).

External effects (subprocess results, HTTP/storage/database responses,
Python `float()` parsing) are passed in explicitly as environment values,
so every function here is a total, executable Lean function whose control
flow mirrors the Python source line by line.  Python truthiness of strings
and string-valued `dict.get` chains is modelled by `pyTruthy` / `pyOr`.
-/

/-! ## Characters and Python-truthiness helpers -/

/-- The character `\x7b` (left curly brace). -/
def lbrace : Char := Char.ofNat 123

/-- The character `\x7d` (right curly brace). -/
def rbrace : Char := Char.ofNat 125

/-- Python truthiness of an optional string: `None` and the empty string
are falsy, every other string is truthy. -/
def pyTruthy : Option String → Bool
  | none => false
  | some s => !s.isEmpty

/-- Python `a or b` restricted to optional strings: returns `a` when `a`
is truthy, otherwise `b`. -/
def pyOr (a b : Option String) : Option String :=
  if pyTruthy a then a else b

/-! ## JSON extraction (`call_hf_generate`, `src/main.py` lines 78-97)

The Python code finds the first `\x7b`, then scans forward keeping an
integer nesting depth: `+1` on `\x7b`, `-1` on `\x7d`, breaking as soon as
the depth returns to zero, and slices the text from the first `\x7b`
through that closing `\x7d`.  String-literal contexts are NOT tracked. -/

/-- Depth contribution of one character in the naive brace counter. -/
def chDelta (c : Char) : ℤ :=
  if c = lbrace then 1 else if c = rbrace then -1 else 0

/-- Total brace depth change over a character list. -/
def braceDepth (cs : List Char) : ℤ :=
  (cs.map chDelta).sum

/-- The scanning loop of `call_hf_generate` (lines 84-93): walk the text
from the first `\x7b`, mutating `depth`; on a `\x7d` that brings the depth
to zero, return everything scanned so far (the candidate JSON slice
`text[start:end+1]`).  `none` models the `end is None` / `ValueError`
path. -/
def braceScan : List Char → ℤ → List Char → Option (List Char)
  | [], _, _ => none
  | c :: rest, depth, acc =>
    if c = lbrace then braceScan rest (depth + 1) (acc ++ [c])
    else if c = rbrace then
      if depth - 1 = 0 then some (acc ++ [c])
      else braceScan rest (depth - 1) (acc ++ [c])
    else braceScan rest depth (acc ++ [c])

/-- `text.find(chr(123))` followed by the balancing scan (lines 80-96):
drop characters until the first `\x7b`, then run `braceScan` from depth 0.
`none` models both the `start == -1` and the `end is None` failure paths
(which fall back to parsing the whole text). -/
def extractJson : List Char → Option (List Char)
  | [] => none
  | c :: rest =>
    if c = lbrace then braceScan (c :: rest) 0 [] else extractJson rest

/-- The scanner entered at depth `d` stops exactly at the end of `obj`:
`obj` ends with a `\x7d`, the depth returns to zero there, and at no
earlier position does a `\x7d` bring the depth to zero. -/
def StopsAt (d : ℤ) (obj : List Char) : Prop :=
  obj.getLast? = some rbrace ∧ d + braceDepth obj = 0 ∧
    ∀ i : ℕ, i < obj.length → 0 < i →
      ¬((obj.take i).getLast? = some rbrace ∧ d + braceDepth (obj.take i) = 0)

instance (d : ℤ) (obj : List Char) : Decidable (StopsAt d obj) := by
  unfold StopsAt; infer_instance

/-! ## Model-output key validation (`call_hf_generate`, lines 104-107) -/

/-- A minimal JSON value type for the parsed model output. -/
inductive JsonVal where
  | str (s : String)
  | num (q : ℚ)
  | bool (b : Bool)
  | null
  | arr (xs : List JsonVal)
  | obj (fields : List (String × JsonVal))

/-- Generation-stage error taxonomy.  In the source every case is an
`HTTPException(502, ...)`; the three raise sites at lines 55, 103 and 106
carry the distinct messages abstracted here. -/
inductive GenerationError where
  | upstreamUnavailable
  | unparsableModelOutput
  | incompleteModelOutput
deriving DecidableEq

/-- The key check at lines 105-106: a parsed object (its top-level field
list) passes only when `script`, `title` and `quiz` are all present; any
missing key raises the `missing keys` `HTTPException`
(`incompleteModelOutput`).  On success the data is returned unchanged
(line 107) with no inspection of the `quiz` value. -/
def validate_model_keys (data : List (String × JsonVal)) :
    Except GenerationError (List (String × JsonVal)) :=
  if (data.lookup "script").isNone || (data.lookup "title").isNone ||
      (data.lookup "quiz").isNone then
    Except.error GenerationError.incompleteModelOutput
  else
    Except.ok data

/-! ## Duration probe and final duration (`make_video`, lines 125-134) -/

/-- Python `int()` applied to a rational: truncation toward zero. -/
def pyInt (x : ℚ) : ℤ :=
  if 0 ≤ x then ⌊x⌋ else ⌈x⌉

/-- Lines 127-131: run `ffprobe` and read its stdout.  `probeStdout = none`
models the subprocess call itself raising; an empty stdout is Python-falsy
(line 129) and selects the guideline; otherwise `float(stdout.strip())` is
attempted, where `floatOf` is the oracle for Python `float()` parsing and
`none` models its `ValueError`, caught by the `except` (lines 130-131)
which substitutes the guideline. -/
def probe_audio_seconds (floatOf : String → Option ℚ)
    (probeStdout : Option String) (duration : ℚ) : ℚ :=
  match probeStdout with
  | none => duration
  | some out =>
    if out.isEmpty then duration
    else (floatOf out.trim).getD duration

/-- Line 134: `final_dur = max(int(audio_seconds + 0.5), duration)`. -/
def final_dur (audio_seconds : ℚ) (duration : ℤ) : ℤ :=
  max (pyInt (audio_seconds + 1/2)) duration

/-! ## Render control flow (`make_video`, lines 136-185) -/

/-- Outcomes of the three external `ffmpeg` invocations and of the probe,
passed to `make_video` as an environment.  `none` means the invocation
succeeded; `some e` carries the exception text of the
`CalledProcessError` (primary / mux) or of any exception (fallback). -/
structure RenderEnv where
  floatOf : String → Option ℚ
  probeStdout : Option String
  primaryResult : Option String
  muxResult : Option String
  fallbackResult : Option String

/-- The render pipeline of `make_video`, as a function from an environment
and a set of existing files to the Python function's outcome (the `ℤ` on
success is the `final_dur` the clips were rendered with) and the resulting
file set.  Mirrors lines 136-185:

* the color clip `output_path + ".color.mp4"` is created by the primary
  `ffmpeg` call when it succeeds (line 150);
* if the primary call or the mux (line 162) raises
  `CalledProcessError`, the fallback combine runs (lines 165-177) and
  produces `output_path` directly;
* if the fallback also fails, a `RuntimeError` carrying both messages is
  raised (line 179);
* the `finally` block (lines 180-185) removes the color clip when it
  exists, on every path. -/
def make_video (env : RenderEnv) (fs : Finset String)
    (output_path : String) (duration : ℤ) :
    Except String ℤ × Finset String :=
  let audio_seconds :=
    probe_audio_seconds env.floatOf env.probeStdout (duration : ℚ)
  let fd := final_dur audio_seconds duration
  let tmp_color := output_path ++ ".color.mp4"
  match env.primaryResult with
  | some e =>
    (match env.fallbackResult with
     | some e2 =>
       (Except.error ("ffmpeg failed: " ++ e ++ "\nfallback failed: " ++ e2),
        fs.erase tmp_color)
     | none => (Except.ok fd, (fs ∪ {output_path}).erase tmp_color))
  | none =>
    let fs1 := fs ∪ {tmp_color}
    match env.muxResult with
    | some e =>
      (match env.fallbackResult with
       | some e2 =>
         (Except.error ("ffmpeg failed: " ++ e ++ "\nfallback failed: " ++ e2),
          fs1.erase tmp_color)
       | none => (Except.ok fd, (fs1 ∪ {output_path}).erase tmp_color))
    | none => (Except.ok fd, (fs1 ∪ {output_path}).erase tmp_color)

/-- `m` contains `e` as a substring. -/
def ContainsSub (m e : String) : Prop :=
  ∃ p s, m = p ++ e ++ s

/-- `true` iff an `Except` value is a success (the Python call returned
rather than raised). -/
def exceptOk {ε α : Type} : Except ε α → Bool
  | Except.ok _ => true
  | Except.error _ => false

/-! ## Publisher (`upload_to_supabase_and_insert`, lines 187-229) -/

/-- The fields read off the `get_public_url` response dict by the chain at
line 199: `pub.get("publicURL")`, `pub.get("data", ...).get("publicUrl")`,
`pub.get("data", ...).get("publicURL")`.  A missing key is `none`. -/
structure PubUrlResp where
  publicURL : Option String
  dataPublicUrl : Option String
  dataPublicURL : Option String

/-- The fields read off the `create_signed_url` response dict by the chain
at lines 203/207: `signed.get("signedURL")` and
`signed.get("data", ...).get("signedUrl")`. -/
structure SignedUrlResp where
  signedURL : Option String
  dataSignedUrl : Option String

/-- The external responses seen by one run of
`upload_to_supabase_and_insert`.  `uploadError` is the `error` field of
the storage upload response (line 193 tests its truthiness);
`pubThrows` models `get_public_url` itself raising (the `except` at
line 204); `insertError` is the `error` field of the insert response
(line 226); `insertData` abstracts `resp.get("data")` (line 229). -/
structure PublishEnv where
  uploadError : Option String
  pubThrows : Bool
  pub : PubUrlResp
  signed : SignedUrlResp
  insertError : Option String
  insertData : Option String

/-- The signed-URL chain of lines 203 and 207:
`signed.get("signedURL") or signed.get("data", ...).get("signedUrl")`. -/
def signedUrlOf (s : SignedUrlResp) : Option String :=
  pyOr s.signedURL s.dataSignedUrl

/-- URL resolution, lines 196-207: try the public-URL chain; if it is
falsy, or if `get_public_url` raised, fall back to a 24h signed URL. -/
def resolve_url (env : PublishEnv) : Option String :=
  if env.pubThrows then signedUrlOf env.signed
  else
    let v := pyOr env.pub.publicURL
      (pyOr env.pub.dataPublicUrl env.pub.dataPublicURL)
    if pyTruthy v then v else signedUrlOf env.signed

/-- One quiz item as the Python code reads it: a parsed JSON dict whose
keys are accessed with `.get`, so every field is optional
(lines 212-214). -/
structure QuizItem where
  question : Option String
  options : Option (List String)
  answer : Option String

/-- A straightforward model of `json.dumps` on a list of strings
(line 221): bracketed, comma-separated, each string quoted with
backslash and double-quote escaped. -/
def jsonDumpsList (xs : List String) : String :=
  let esc := fun (s : String) =>
    String.mk (s.toList.flatMap fun c =>
      if c = '\\' ∨ c = '\"' then ['\\', c] else [c])
  "[" ++ String.intercalate ", " (xs.map fun s => "\"" ++ esc s ++ "\"") ++ "]"

/-- The row assembled at lines 209-223: `quiz[0]` is taken only when the
quiz list is non-empty (`quiz.head?`), each field via `.get`, and the
options are JSON-encoded only when truthy (a present-but-empty list is
falsy and stored as null). -/
structure InsertPayload where
  title : String
  video_url : Option String
  role : String
  quiz_question : Option String
  quiz_options : Option String
  quiz_answer : Option String
deriving DecidableEq

/-- Builds the insert payload of lines 209-223. -/
def mkInsertPayload (title role : String) (video_url : Option String)
    (quiz : List QuizItem) : InsertPayload :=
  let primary_q := quiz.head?
  let quiz_options := primary_q.bind (·.options)
  { title := title
    video_url := video_url
    role := role
    quiz_question := primary_q.bind (·.question)
    quiz_options :=
      match quiz_options with
      | some l => if l.isEmpty then none else some (jsonDumpsList l)
      | none => none
    quiz_answer := primary_q.bind (·.answer) }

/-- What `upload_to_supabase_and_insert` returns on its non-raising paths:
the dicts of lines 228 and 229. -/
structure PublishResult where
  video_url : Option String
  db_result : Option String
  insert_error : Option String
deriving DecidableEq

/-- `upload_to_supabase_and_insert` (lines 187-229).  The first component
is the Python outcome: `Except.error` models the `RuntimeError` raised at
line 194 on a truthy upload error, `Except.ok` the returned dict.  The
second component records whether the database insert (line 225) was
reached. -/
def upload_to_supabase_and_insert (env : PublishEnv) (title role : String)
    (quiz : List QuizItem) : Except String PublishResult × Bool :=
  if pyTruthy env.uploadError then
    (Except.error ("Supabase upload error: " ++ env.uploadError.getD ""),
     false)
  else
    let video_url := resolve_url env
    let _payload := mkInsertPayload title role video_url quiz
    if pyTruthy env.insertError then
      (Except.ok { video_url := video_url, db_result := none,
                   insert_error := env.insertError }, true)
    else
      (Except.ok { video_url := video_url, db_result := env.insertData,
                   insert_error := none }, true)

/-! ## Endpoint tail (`generate`, lines 260-273) -/

/-- The success response assembled at line 273. -/
structure GenerateResponse where
  ok : Bool
  title : String
  video_url : Option String
  meta : Option String
deriving DecidableEq

/-- Steps 4 onward of the `generate` endpoint (lines 260-273): call the
publisher; any exception becomes the 500 `Upload/DB insert failed`
response; otherwise answer `ok = True` with
`meta = up_res.get("db_result") or up_res.get("insert_error")`. -/
def generate_tail (env : PublishEnv) (title role : String)
    (quiz : List QuizItem) : Except String GenerateResponse :=
  match (upload_to_supabase_and_insert env title role quiz).1 with
  | Except.error e => Except.error ("Upload/DB insert failed: " ++ e)
  | Except.ok r =>
    Except.ok { ok := true, title := title, video_url := r.video_url,
                meta := pyOr r.db_result r.insert_error }

/-! ## Theorems: JSON extraction (C1) -/

theorem braceDepth_nil : braceDepth [] = 0 := rfl

theorem braceDepth_cons (c : Char) (cs : List Char) :
    braceDepth (c :: cs) = chDelta c + braceDepth cs := by
  simp [braceDepth]

theorem chDelta_lbrace : chDelta lbrace = 1 := by decide

theorem chDelta_rbrace : chDelta rbrace = -1 := by decide

theorem chDelta_other {c : Char} (h1 : c ≠ lbrace) (h2 : c ≠ rbrace) :
    chDelta c = 0 := by
  simp [chDelta, h1, h2]

theorem StopsAt_cons {c : Char} {rest : List Char} {d : ℤ}
    (h : StopsAt d (c :: rest)) (hne : rest ≠ []) :
    StopsAt (d + chDelta c) rest := by
  obtain ⟨hlast, hdep, hfirst⟩ := h
  refine ⟨?_, ?_, ?_⟩
  · cases rest with
    | nil => exact absurd rfl hne
    | cons r rs => simpa using hlast
  · rw [braceDepth_cons] at hdep; linarith
  · intro i hi hpos hcontra
    obtain ⟨hl, hd⟩ := hcontra
    have htake : (c :: rest).take (i + 1) = c :: rest.take i :=
      List.take_succ_cons
    refine hfirst (i + 1) (by simp only [List.length_cons]; omega)
      (by omega) ⟨?_, ?_⟩
    · rw [htake]
      have hne2 : rest.take i ≠ [] := by
        rw [Ne, List.take_eq_nil_iff]
        push_neg
        exact ⟨by omega, hne⟩
      cases h' : rest.take i with
      | nil => exact absurd h' hne2
      | cons x xs =>
        rw [h'] at hl
        simpa using hl
    · rw [htake, braceDepth_cons]
      linarith

theorem braceScan_stops (obj : List Char) :
    ∀ (d : ℤ) (acc suf : List Char), StopsAt d obj →
      braceScan (obj ++ suf) d acc = some (acc ++ obj) := by
  induction obj with
  | nil =>
    intro d acc suf h
    exact absurd h.1 (by simp)
  | cons c rest ih =>
    intro d acc suf h
    have hstep : braceScan ((c :: rest) ++ suf) d acc =
        if c = lbrace then braceScan (rest ++ suf) (d + 1) (acc ++ [c])
        else if c = rbrace then
          if d - 1 = 0 then some (acc ++ [c])
          else braceScan (rest ++ suf) (d - 1) (acc ++ [c])
        else braceScan (rest ++ suf) d (acc ++ [c]) := rfl
    rw [hstep]
    by_cases hc : c = lbrace
    · rw [if_pos hc]
      have hne : rest ≠ [] := by
        intro hr
        subst hr
        have hl := h.1
        rw [hc] at hl
        simp at hl
        exact absurd hl (by decide)
      have hs : StopsAt (d + 1) rest := by
        have h2 := StopsAt_cons h hne
        rwa [hc, chDelta_lbrace] at h2
      rw [ih (d + 1) (acc ++ [c]) suf hs]
      simp
    · by_cases hc2 : c = rbrace
      · rw [if_neg hc, if_pos hc2]
        by_cases hd : d - 1 = 0
        · rw [if_pos hd]
          have hrest : rest = [] := by
            by_contra hne
            have hlen : 1 < (c :: rest).length := by
              simp only [List.length_cons]
              cases rest with
              | nil => exact absurd rfl hne
              | cons r rs => simp
            have htake : (c :: rest).take 1 = [c] := rfl
            refine h.2.2 1 hlen (by omega) ⟨?_, ?_⟩
            · rw [htake, hc2]
              simp
            · rw [htake, braceDepth_cons, hc2, chDelta_rbrace, braceDepth_nil]
              omega
          rw [hrest]
        · rw [if_neg hd]
          have hne : rest ≠ [] := by
            intro hr
            subst hr
            have h2 := h.2.1
            rw [braceDepth_cons, hc2, chDelta_rbrace, braceDepth_nil] at h2
            omega
          have hs : StopsAt (d - 1) rest := by
            have h2 := StopsAt_cons h hne
            rw [hc2, chDelta_rbrace] at h2
            have he : d + (-1) = d - 1 := by ring
            rwa [he] at h2
          rw [ih (d - 1) (acc ++ [c]) suf hs]
          simp
      · rw [if_neg hc, if_neg hc2]
        have hne : rest ≠ [] := by
          intro hr
          subst hr
          have hl := h.1
          simp at hl
          exact absurd hl hc2
        have hs : StopsAt d rest := by
          have h2 := StopsAt_cons h hne
          rwa [chDelta_other hc hc2, add_zero] at h2
        rw [ih d (acc ++ [c]) suf hs]
        simp

theorem extractJson_skip (pre : List Char) :
    ∀ rest : List Char, lbrace ∉ pre →
      extractJson (pre ++ rest) = extractJson rest := by
  induction pre with
  | nil => intro rest _; rfl
  | cons c cs ih =>
    intro rest hpre
    have hc : c ≠ lbrace := fun h => hpre (h ▸ List.mem_cons_self c cs)
    have hstep : extractJson ((c :: cs) ++ rest) =
        if c = lbrace then braceScan (c :: (cs ++ rest)) 0 []
        else extractJson (cs ++ rest) := rfl
    rw [hstep, if_neg hc]
    exact ih rest (fun h => hpre (List.mem_cons_of_mem _ h))

/-- C1 (amended).  The naive brace counter of `call_hf_generate` does not
track string-literal contexts, so the extraction is exact only under a
brace-balance side condition: for any raw text `pre ++ obj ++ suf` whose
prose prefix `pre` contains no left brace and whose object
`obj = lbrace :: body` is where the counter first returns to depth zero at
the object's final right brace (`StopsAt 0 obj` — in particular any brace
characters inside the object's string values are balanced), the extraction
returns exactly `obj`. -/
theorem extraction_exact_of_balanced (pre body suf : List Char)
    (hpre : lbrace ∉ pre) (hstops : StopsAt 0 (lbrace :: body)) :
    extractJson (pre ++ (lbrace :: body) ++ suf) = some (lbrace :: body) := by
  rw [List.append_assoc, extractJson_skip pre ((lbrace :: body) ++ suf) hpre]
  have hstep : extractJson ((lbrace :: body) ++ suf) =
      braceScan ((lbrace :: body) ++ suf) 0 [] := by
    have h0 : extractJson (lbrace :: (body ++ suf)) =
        if lbrace = lbrace then braceScan (lbrace :: (body ++ suf)) 0 []
        else extractJson (body ++ suf) := rfl
    rw [List.cons_append, h0, if_pos rfl]
  rw [hstep, braceScan_stops (lbrace :: body) 0 [] suf hstops]
  simp

/-- Witness for C1 (amended): the object `\x7b"t":"a\x7b\x7db"\x7d` has a
balanced brace pair inside a string value and is still extracted exactly
from surrounding prose. -/
theorem extraction_exact_of_balanced_witness :
    extractJson (("foo ").toList ++
        (lbrace :: ("\"t\":\"a\x7b\x7db\"\x7d").toList) ++ (" bar").toList) =
      some (lbrace :: ("\"t\":\"a\x7b\x7db\"\x7d").toList) :=
  extraction_exact_of_balanced _ _ _ (by decide) (by decide)

/-- C1 counterexample: on the raw text
`foo \x7b"title":"a\x7db","script":"x","quiz":[]\x7d bar`, which contains
the single balanced JSON object
`\x7b"title":"a\x7db","script":"x","quiz":[]\x7d` (a lone right brace
inside the string value `"a\x7db"`), the extraction of
`call_hf_generate` stops at that in-string brace and returns the strict
prefix `\x7b"title":"a\x7d` instead of the object's text. -/
theorem extraction_truncates_on_in_string_brace :
    extractJson (("foo \x7b\"title\":\"a\x7db\",\"script\":\"x\",\"quiz\":[]\x7d bar").toList) =
      some (("\x7b\"title\":\"a\x7d").toList) ∧
    ("\x7b\"title\":\"a\x7d").toList ≠
      ("\x7b\"title\":\"a\x7db\",\"script\":\"x\",\"quiz\":[]\x7d").toList := by
  exact ⟨by decide, by decide⟩

/-! ## Theorems: final duration (C2) and duration probe (C7) -/

/-- C2 counterexample: with a probed duration of `D = 3.4` seconds and a
guideline of `G = 3`, the computed final duration
`max(int(D + 0.5), G) = max(3, 3) = 3` is strictly shorter than the
narration, refuting the claim's "always at least as long as the
narration". -/
theorem final_dur_shorter_than_narration :
    final_dur (17 / 5) 3 = 3 ∧
      ¬((17 / 5 : ℚ) ≤ ((final_dur (17 / 5) 3 : ℤ) : ℚ)) := by
  have h : final_dur (17 / 5) 3 = 3 := by
    rw [final_dur, pyInt, if_pos (by norm_num)]
    norm_num
  refine ⟨h, ?_⟩
  rw [h]
  norm_num

/-- C2 (amended): for a probed duration `D ≥ 0` and guideline `G`, the
computed final duration `final_dur = max(int(D + 0.5), G)` equals
`max(round(D), G)` exactly and is never below the guideline; it can fall
short of the narration length, but by less than half a second (the exact
`int(D + 0.5)` rounding), proved as `D ≤ final_dur + 1/2`. -/
theorem final_dur_eq_max_round (D : ℚ) (G : ℤ) (h : 0 ≤ D) :
    final_dur D G = max (round D) G ∧ G ≤ final_dur D G ∧
      D ≤ (final_dur D G : ℚ) + 1 / 2 := by
  have hp : pyInt (D + 1 / 2) = ⌊D + 1 / 2⌋ := by
    rw [pyInt, if_pos (by linarith)]
  have hr : round D = ⌊D + 1 / 2⌋ := round_eq D
  refine ⟨?_, ?_, ?_⟩
  · rw [final_dur, hp, hr]
  · rw [final_dur]
    exact le_max_right _ _
  · rw [final_dur, hp]
    have h1 : D + 1 / 2 < (⌊D + 1 / 2⌋ : ℚ) + 1 := Int.lt_floor_add_one _
    have h2 : ((⌊D + 1 / 2⌋ : ℤ) : ℚ) ≤ ((max ⌊D + 1 / 2⌋ G : ℤ) : ℚ) := by
      exact_mod_cast le_max_left _ _
    linarith

/-- Witness for C2 at `D = 3/2`, `G = 45`. -/
theorem final_dur_eq_max_round_witness :
    final_dur (3 / 2) 45 = max (round (3 / 2 : ℚ)) 45 ∧
      (45 : ℤ) ≤ final_dur (3 / 2) 45 ∧
      (3 / 2 : ℚ) ≤ (final_dur (3 / 2) 45 : ℚ) + 1 / 2 :=
  final_dur_eq_max_round (3 / 2) 45 (by norm_num)

/-- C7: the duration-probe step is a total function and substitutes the
caller-supplied guideline on every failure: when the probe subprocess
raises (`probeStdout = none`), when it prints nothing (Python-falsy
stdout), or when `float()` rejects the printed string. -/
theorem probe_fallback_on_failure (floatOf : String → Option ℚ)
    (probeStdout : Option String) (duration : ℚ)
    (h : probeStdout = none ∨ ∃ s, probeStdout = some s ∧
        (s.isEmpty = true ∨ floatOf s.trim = none)) :
    probe_audio_seconds floatOf probeStdout duration = duration := by
  rcases h with h | ⟨s, hs, hcase⟩
  · rw [h]
    rfl
  · rw [hs]
    rcases hcase with he | hf
    · simp [probe_audio_seconds, he]
    · by_cases he : s.isEmpty
      · simp [probe_audio_seconds, he]
      · simp [probe_audio_seconds, he, hf]

/-- Witness for C7: an unparsable probe output falls back to the
guideline 45. -/
theorem probe_fallback_on_failure_witness :
    probe_audio_seconds (fun _ => none) (some "oops") 45 = 45 :=
  probe_fallback_on_failure (fun _ => none) (some "oops") 45
    (Or.inr ⟨"oops", rfl, Or.inr rfl⟩)

/-! ## Theorems: model-output key validation (C5) -/

/-- C5: the parsed model output is rejected with the specific
`incompleteModelOutput` error — and no other — exactly when one of the
top-level keys `script`, `title`, `quiz` is missing; when all three are
present the data is returned unchanged, so no further validation of the
quiz items happens. -/
theorem validate_model_keys_spec (data : List (String × JsonVal)) :
    (((data.lookup "script").isNone ∨ (data.lookup "title").isNone ∨
        (data.lookup "quiz").isNone) →
      validate_model_keys data =
        Except.error GenerationError.incompleteModelOutput) ∧
    (((data.lookup "script").isSome ∧ (data.lookup "title").isSome ∧
        (data.lookup "quiz").isSome) →
      validate_model_keys data = Except.ok data) := by
  constructor
  · intro h
    rw [validate_model_keys, if_pos]
    rcases h with h | h | h <;> simp [h]
  · intro h
    obtain ⟨h1, h2, h3⟩ := h
    rw [Option.isSome_iff_exists] at h1 h2 h3
    obtain ⟨a, ha⟩ := h1
    obtain ⟨b, hb⟩ := h2
    obtain ⟨c, hc⟩ := h3
    rw [validate_model_keys, if_neg]
    simp [ha, hb, hc]

/-- Witness for C5: the empty object is rejected as incomplete; a
three-key object is returned unchanged even though its quiz value is not
a well-formed quiz. -/
theorem validate_model_keys_spec_witness :
    validate_model_keys [] =
      Except.error GenerationError.incompleteModelOutput ∧
    validate_model_keys
        [("title", JsonVal.str "T"), ("script", JsonVal.str "S"),
         ("quiz", JsonVal.null)] =
      Except.ok
        [("title", JsonVal.str "T"), ("script", JsonVal.str "S"),
         ("quiz", JsonVal.null)] :=
  ⟨(validate_model_keys_spec []).1 (by simp),
   (validate_model_keys_spec _).2 (by simp)⟩

/-! ## Theorems: render fallback (C4) and color-clip cleanup (C8) -/

theorem self_ne_self_append_color (s : String) : s ≠ s ++ ".color.mp4" := by
  intro h
  have h2 := congrArg String.length h
  rw [String.length_append] at h2
  have h3 : (".color.mp4" : String).length = 10 := rfl
  omega

/-- C4: whenever the primary render step fails — the background render
with text overlay raises `CalledProcessError` with message `e1`, or it
succeeds and the audio mux raises with `e1` — `make_video` runs the
overlay-free fallback: if the fallback succeeds the function returns
normally and the output file exists; only if the fallback also fails does
it raise, and the raised message contains both underlying messages. -/
theorem make_video_fallback (env : RenderEnv) (fs : Finset String)
    (output_path : String) (duration : ℤ) (e1 : String)
    (hfail : env.primaryResult = some e1 ∨
      (env.primaryResult = none ∧ env.muxResult = some e1)) :
    (env.fallbackResult = none →
      (make_video env fs output_path duration).1 =
        Except.ok (final_dur
          (probe_audio_seconds env.floatOf env.probeStdout (duration : ℚ))
          duration) ∧
      output_path ∈ (make_video env fs output_path duration).2) ∧
    (∀ e2, env.fallbackResult = some e2 →
      (make_video env fs output_path duration).1 =
        Except.error
          ("ffmpeg failed: " ++ e1 ++ "\nfallback failed: " ++ e2) ∧
      ContainsSub ("ffmpeg failed: " ++ e1 ++ "\nfallback failed: " ++ e2)
        e1 ∧
      ContainsSub ("ffmpeg failed: " ++ e1 ++ "\nfallback failed: " ++ e2)
        e2) := by
  constructor
  · intro hfb
    constructor
    · rcases hfail with h | ⟨h1, h2⟩
      · simp [make_video, h, hfb]
      · simp [make_video, h1, h2, hfb]
    · have hmem : output_path ∈
          ((fs ∪ {output_path ++ ".color.mp4"}) ∪ {output_path}).erase
            (output_path ++ ".color.mp4") := by
        rw [Finset.mem_erase]
        exact ⟨self_ne_self_append_color output_path, by simp⟩
      have hmem2 : output_path ∈
          (fs ∪ {output_path}).erase (output_path ++ ".color.mp4") := by
        rw [Finset.mem_erase]
        exact ⟨self_ne_self_append_color output_path, by simp⟩
      rcases hfail with h | ⟨h1, h2⟩
      · simpa [make_video, h, hfb] using hmem2
      · simpa [make_video, h1, h2, hfb] using hmem
  · intro e2 hfb
    refine ⟨?_, ?_, ?_⟩
    · rcases hfail with h | ⟨h1, h2⟩
      · simp [make_video, h, hfb]
      · simp [make_video, h1, h2, hfb]
    · exact ⟨"ffmpeg failed: ", "\nfallback failed: " ++ e2,
        String.append_assoc _ _ _⟩
    · exact ⟨"ffmpeg failed: " ++ e1 ++ "\nfallback failed: ", "",
        (String.append_empty _).symm⟩

/-- Witness for C4: a failing primary render with a succeeding fallback
still produces the output file. -/
theorem make_video_fallback_witness :
    (make_video (RenderEnv.mk (fun _ => none) none (some "boom") none none)
        ∅ "video.mp4" 45).1 =
      Except.ok (final_dur
        (probe_audio_seconds (fun _ => none) none ((45 : ℤ) : ℚ)) 45) ∧
    "video.mp4" ∈
      (make_video (RenderEnv.mk (fun _ => none) none (some "boom") none none)
        ∅ "video.mp4" 45).2 :=
  (make_video_fallback
    (RenderEnv.mk (fun _ => none) none (some "boom") none none)
    ∅ "video.mp4" 45 "boom" (Or.inl rfl)).1 rfl

/-- C8: on every exit path of `make_video` — primary success, fallback
success, or failure of both render attempts — the intermediate
background-only clip `output_path + ".color.mp4"` is absent from the
resulting file set: the `finally` block deletes it before the function
returns. -/
theorem make_video_removes_color_clip (env : RenderEnv) (fs : Finset String)
    (output_path : String) (duration : ℤ) :
    (output_path ++ ".color.mp4") ∉
      (make_video env fs output_path duration).2 := by
  obtain ⟨fl, ps, pr, mr, fr⟩ := env
  cases pr <;> cases mr <;> cases fr <;>
    simp [make_video, Finset.not_mem_erase]

/-! ## Theorems: publisher (C3, C6, C9, C10) -/

/-- C3: when the storage upload response carries a (truthy) error, the
publisher raises the upload failure (`Supabase upload error: ...`) and the
database insert is never reached, so no metadata row can be created for a
file that failed to upload. -/
theorem upload_error_blocks_insert (env : PublishEnv) (title role : String)
    (quiz : List QuizItem) (h : pyTruthy env.uploadError = true) :
    (upload_to_supabase_and_insert env title role quiz).1 =
      Except.error ("Supabase upload error: " ++ env.uploadError.getD "") ∧
    (upload_to_supabase_and_insert env title role quiz).2 = false := by
  constructor <;> simp [upload_to_supabase_and_insert, h]

/-- Witness for C3 at a concrete failing upload. -/
theorem upload_error_blocks_insert_witness :
    (upload_to_supabase_and_insert
        (PublishEnv.mk (some "boom") false (PubUrlResp.mk none none none)
          (SignedUrlResp.mk none none) none none) "T" "student" []).1 =
      Except.error ("Supabase upload error: " ++ (some "boom").getD "") ∧
    (upload_to_supabase_and_insert
        (PublishEnv.mk (some "boom") false (PubUrlResp.mk none none none)
          (SignedUrlResp.mk none none) none none) "T" "student" []).2 =
      false :=
  upload_error_blocks_insert
    (PublishEnv.mk (some "boom") false (PubUrlResp.mk none none none)
      (SignedUrlResp.mk none none) none none) "T" "student" [] rfl

/-- C6: when the upload succeeds but the insert response carries a
(truthy) error, the publisher does not raise: it returns the
already-resolved `video_url` next to the insert error, and the endpoint
still answers `ok = true` with that URL, the insert error standing in as
the `meta` field. -/
theorem insert_error_partial_success (env : PublishEnv)
    (title role : String) (quiz : List QuizItem)
    (hu : pyTruthy env.uploadError = false)
    (hi : pyTruthy env.insertError = true) :
    (upload_to_supabase_and_insert env title role quiz).1 =
      Except.ok (PublishResult.mk (resolve_url env) none env.insertError) ∧
    generate_tail env title role quiz =
      Except.ok (GenerateResponse.mk true title (resolve_url env)
        env.insertError) := by
  have h1 : (upload_to_supabase_and_insert env title role quiz).1 =
      Except.ok (PublishResult.mk (resolve_url env) none env.insertError) := by
    simp [upload_to_supabase_and_insert, hu, hi]
  refine ⟨h1, ?_⟩
  simp [generate_tail, h1, pyOr, pyTruthy]

/-- Witness for C6: a failing insert after a successful upload still
yields `ok = true` with the resolved URL. -/
theorem insert_error_partial_success_witness :
    (upload_to_supabase_and_insert
        (PublishEnv.mk none false (PubUrlResp.mk (some "http://u") none none)
          (SignedUrlResp.mk none none) (some "dbfail") none)
        "T" "student" []).1 =
      Except.ok (PublishResult.mk
        (resolve_url
          (PublishEnv.mk none false (PubUrlResp.mk (some "http://u") none none)
            (SignedUrlResp.mk none none) (some "dbfail") none))
        none (some "dbfail")) ∧
    generate_tail
        (PublishEnv.mk none false (PubUrlResp.mk (some "http://u") none none)
          (SignedUrlResp.mk none none) (some "dbfail") none)
        "T" "student" [] =
      Except.ok (GenerateResponse.mk true "T"
        (resolve_url
          (PublishEnv.mk none false (PubUrlResp.mk (some "http://u") none none)
            (SignedUrlResp.mk none none) (some "dbfail") none))
        (some "dbfail")) :=
  insert_error_partial_success
    (PublishEnv.mk none false (PubUrlResp.mk (some "http://u") none none)
      (SignedUrlResp.mk none none) (some "dbfail") none)
    "T" "student" [] rfl rfl

/-- C9: when the upload succeeds but neither the public-URL response nor
the signed-URL response carries any recognized URL field, no error is
raised: the resolved URL is `none`, the metadata row is inserted with a
null `video_url`, the insert is reached, and the endpoint answers
`ok = true` with a null `video_url`. -/
theorem missing_urls_degrade_to_null (env : PublishEnv)
    (title role : String) (quiz : List QuizItem)
    (hu : pyTruthy env.uploadError = false)
    (hp1 : env.pub.publicURL = none) (hp2 : env.pub.dataPublicUrl = none)
    (hp3 : env.pub.dataPublicURL = none)
    (hs1 : env.signed.signedURL = none)
    (hs2 : env.signed.dataSignedUrl = none)
    (hi : pyTruthy env.insertError = false) :
    resolve_url env = none ∧
    (mkInsertPayload title role (resolve_url env) quiz).video_url = none ∧
    (upload_to_supabase_and_insert env title role quiz).1 =
      Except.ok (PublishResult.mk none env.insertData none) ∧
    (upload_to_supabase_and_insert env title role quiz).2 = true ∧
    generate_tail env title role quiz =
      Except.ok (GenerateResponse.mk true title none
        (pyOr env.insertData none)) := by
  have hres : resolve_url env = none := by
    cases hb : env.pubThrows <;>
      simp [resolve_url, hb, signedUrlOf, hp1, hp2, hp3, hs1, hs2, pyOr,
        pyTruthy]
  have hup : (upload_to_supabase_and_insert env title role quiz).1 =
      Except.ok (PublishResult.mk none env.insertData none) := by
    simp [upload_to_supabase_and_insert, hu, hi, hres]
  refine ⟨hres, ?_, hup, ?_, ?_⟩
  · rw [hres]
    simp [mkInsertPayload]
  · simp [upload_to_supabase_and_insert, hu, hi]
  · simp [generate_tail, hup]

/-- Witness for C9: with every URL field absent the run completes with a
null URL. -/
theorem missing_urls_degrade_to_null_witness :
    resolve_url (PublishEnv.mk none false (PubUrlResp.mk none none none)
        (SignedUrlResp.mk none none) none (some "row")) = none ∧
    (mkInsertPayload "T" "student"
        (resolve_url (PublishEnv.mk none false (PubUrlResp.mk none none none)
          (SignedUrlResp.mk none none) none (some "row"))) []).video_url =
      none ∧
    (upload_to_supabase_and_insert
        (PublishEnv.mk none false (PubUrlResp.mk none none none)
          (SignedUrlResp.mk none none) none (some "row"))
        "T" "student" []).1 =
      Except.ok (PublishResult.mk none (some "row") none) ∧
    (upload_to_supabase_and_insert
        (PublishEnv.mk none false (PubUrlResp.mk none none none)
          (SignedUrlResp.mk none none) none (some "row"))
        "T" "student" []).2 = true ∧
    generate_tail
        (PublishEnv.mk none false (PubUrlResp.mk none none none)
          (SignedUrlResp.mk none none) none (some "row"))
        "T" "student" [] =
      Except.ok (GenerateResponse.mk true "T" none
        (pyOr (some "row") none)) :=
  missing_urls_degrade_to_null
    (PublishEnv.mk none false (PubUrlResp.mk none none none)
      (SignedUrlResp.mk none none) none (some "row"))
    "T" "student" [] rfl rfl rfl rfl rfl rfl rfl

/-- C10: for every quiz sequence the publisher completes without raising
once the upload has succeeded (reading the first quiz item is done with a
guarded `quiz[0]`, so there is no out-of-bounds access), and for the
empty sequence the inserted row carries null `quiz_question`,
`quiz_options` and `quiz_answer`. -/
theorem empty_quiz_inserts_nulls (env : PublishEnv) (title role : String)
    (quiz : List QuizItem) (hu : pyTruthy env.uploadError = false) :
    exceptOk (upload_to_supabase_and_insert env title role quiz).1 = true ∧
    (quiz = [] →
      (mkInsertPayload title role (resolve_url env) quiz).quiz_question =
        none ∧
      (mkInsertPayload title role (resolve_url env) quiz).quiz_options =
        none ∧
      (mkInsertPayload title role (resolve_url env) quiz).quiz_answer =
        none) := by
  constructor
  · cases hie : pyTruthy env.insertError <;>
      simp [upload_to_supabase_and_insert, hu, hie, exceptOk]
  · intro hq
    subst hq
    refine ⟨?_, ?_, ?_⟩ <;> simp [mkInsertPayload]

/-- Witness for C10 at the empty quiz. -/
theorem empty_quiz_inserts_nulls_witness :
    exceptOk (upload_to_supabase_and_insert
        (PublishEnv.mk none false (PubUrlResp.mk none none none)
          (SignedUrlResp.mk none none) none none) "T" "student" []).1 =
      true ∧
    (mkInsertPayload "T" "student"
        (resolve_url (PublishEnv.mk none false (PubUrlResp.mk none none none)
          (SignedUrlResp.mk none none) none none)) []).quiz_question =
      none ∧
    (mkInsertPayload "T" "student"
        (resolve_url (PublishEnv.mk none false (PubUrlResp.mk none none none)
          (SignedUrlResp.mk none none) none none)) []).quiz_options =
      none ∧
    (mkInsertPayload "T" "student"
        (resolve_url (PublishEnv.mk none false (PubUrlResp.mk none none none)
          (SignedUrlResp.mk none none) none none)) []).quiz_answer =
      none :=
  ⟨(empty_quiz_inserts_nulls
      (PublishEnv.mk none false (PubUrlResp.mk none none none)
        (SignedUrlResp.mk none none) none none) "T" "student" [] rfl).1,
   (empty_quiz_inserts_nulls
      (PublishEnv.mk none false (PubUrlResp.mk none none none)
        (SignedUrlResp.mk none none) none none) "T" "student" [] rfl).2 rfl⟩
